import Mathlib

/-!
Shallow embedding of the BlinkyTree ATtiny85 firmware and proofs about its
specification claims.  The embedding follows the debug/shared-pin build
(`RESET_PIN_AS_IO` undefined), which is the configuration that contains the
shared-pin time-multiplexing logic: `src/lib/Hardware/hardware.cpp`,
`src/lib/Sensors/sensors.cpp`, `src/lib/Lighting/lighting.cpp`,
`src/lib/Audio/audio.cpp` and `src/src/main.cpp`.

Machine integers are modelled as `Nat` (with explicit `% 2^w` where the C
semantics truncates) and `Int` for signed quantities.  Pin registers are
modelled as the individual bits the firmware reads and writes.
-/

set_option maxRecDepth 65536

namespace BlinkyTree

/-! ## Configuration constants (src/config/config.h, src/lib/Audio/audio.h) -/

/-- `BREATH_LIGHT_THRESHOLD` (config.h line 208). -/
def BREATH_LIGHT_THRESHOLD : Nat := 1

/-- `BREATH_STRONG_THRESHOLD` (config.h line 209). -/
def BREATH_STRONG_THRESHOLD : Nat := 50

/-- `SONG_COOLDOWN_DURATION` in ms (config.h line 211). -/
def SONG_COOLDOWN_DURATION : Nat := 3000

/-- `UINT32_MOD = 2^32`, the modulus of `uint32_t` arithmetic. -/
def UINT32_MOD : Nat := 4294967296

/-! ## Hardware layer (src/lib/Hardware/hardware.cpp)

LED ring indices (`led_id_t`, hardware.h): `0 = LED_1ER_RING`,
`1 = LED_3ER_RING` (the ring on the shared microphone pin PB3),
`2 = LED_4ER_RING`, `3 = LED_5ER_RING`. -/

abbrev LedId := Fin 4

/-- `LED_3ER_RING`: index of the channel on the shared pin `SHARED_PIN_MIC_LED = PB3`. -/
def LED_3ER_RING : LedId := 1

/-- State owned by hardware.cpp in the debug (shared-pin) build:
the double-buffered brightness arrays, the swap flag, the 8-bit PWM phase
counter, the `DDRB` direction bit of PB3, the `mic_reading_ready` flag and
the `PORTB` bits of the four LED pins (indexed by ring). -/
structure HardwareState where
  led_brightness_active : LedId → Nat
  led_brightness_pending : LedId → Nat
  buffer_swap_pending : Bool
  pwm_counter : Nat
  pb3_is_output : Bool
  mic_reading_ready : Bool
  port_led : LedId → Bool
  deriving DecidableEq

/-- A LED pin is driven high iff `brightness > pwm_counter`
(hardware.cpp lines 131-140). -/
def ledPinHigh (brightness phase : Nat) : Bool := brightness > phase

/-- `hardware_update` (hardware.cpp lines 85-158), debug build branch.
`micInterval` stands for the constant `MIC_SAMPLE_INTERVAL_MIN`, which is used
at line 112 but defined nowhere under src/; the development is parameterized
over it (any positive value).  Steps: increment the uint8 phase counter;
swap the double buffers when the counter wrapped to 0 and a swap is pending;
arbitrate the PB3 direction (input when `pwm_counter > active[LED_3ER]`, else
output, with `mic_reading_ready` forced false); recompute all four port bits
from `active > pwm_counter`. -/
def hardware_update (micInterval : Nat) (s : HardwareState) : HardwareState :=
  let p := (s.pwm_counter + 1) % 256
  let active := if p = 0 ∧ s.buffer_swap_pending = true then s.led_brightness_pending
                else s.led_brightness_active
  let swapFlag := if p = 0 ∧ s.buffer_swap_pending = true then false
                  else s.buffer_swap_pending
  -- hardware.cpp line 102: `if (pwm_counter > led_brightness_active[LED_3ER_RING])`
  let micInput := p > active LED_3ER_RING
  { led_brightness_active := active
    led_brightness_pending := s.led_brightness_pending
    buffer_swap_pending := swapFlag
    pwm_counter := p
    -- lines 106-109 / 119-123: net effect on the DDRB bit of PB3
    pb3_is_output := !decide micInput
    -- lines 111-115 / 124: ready flag set on every `MIC_SAMPLE_INTERVAL_MIN`-th
    -- phase of the input window, cleared whenever the pin is an output
    mic_reading_ready :=
      if micInput then (if p % micInterval = 0 then true else s.mic_reading_ready)
      else false
    port_led := fun i => ledPinHigh (active i) p }

/-- Phase counter after one `hardware_update` tick. -/
theorem hardware_update_pwm (mi : Nat) (s : HardwareState) :
    (hardware_update mi s).pwm_counter = (s.pwm_counter + 1) % 256 := rfl

/-- Active buffer after one `hardware_update` tick. -/
theorem hardware_update_active (mi : Nat) (s : HardwareState) :
    (hardware_update mi s).led_brightness_active =
      if (s.pwm_counter + 1) % 256 = 0 ∧ s.buffer_swap_pending = true then
        s.led_brightness_pending
      else s.led_brightness_active := rfl

/-- PB3 direction after one `hardware_update` tick, in terms of the phase and
active brightness it itself computed. -/
theorem hardware_update_pb3 (mi : Nat) (s : HardwareState) :
    (hardware_update mi s).pb3_is_output =
      !decide ((hardware_update mi s).led_brightness_active LED_3ER_RING <
        (hardware_update mi s).pwm_counter) := rfl

/-- Sampling-ready flag after one `hardware_update` tick. -/
theorem hardware_update_ready (mi : Nat) (s : HardwareState) :
    (hardware_update mi s).mic_reading_ready =
      if (hardware_update mi s).led_brightness_active LED_3ER_RING <
          (hardware_update mi s).pwm_counter then
        (if (hardware_update mi s).pwm_counter % mi = 0 then true
         else s.mic_reading_ready)
      else false := rfl

/-- Port bits after one `hardware_update` tick. -/
theorem hardware_update_port (mi : Nat) (s : HardwareState) :
    (hardware_update mi s).port_led = fun i =>
      ledPinHigh ((hardware_update mi s).led_brightness_active i)
        ((hardware_update mi s).pwm_counter) := rfl

/-- `hardware_led_set` (hardware.cpp lines 165-173): out-of-range index is a
no-op; otherwise store the (uint8) brightness in the pending buffer and set
the swap flag.  The active buffer and outputs are untouched. -/
def hardware_led_set (led brightness : Nat) (s : HardwareState) : HardwareState :=
  if h : led < 4 then
    { s with
      led_brightness_pending :=
        Function.update s.led_brightness_pending ⟨led, h⟩ (brightness % 256)
      buffer_swap_pending := true }
  else s

/-- `hardware_led_all_off` (hardware.cpp lines 175-181): clears the PORTB bits
of PIN_LED_1ER, PIN_LED_3ER and PIN_LED_5ER (the mask at line 177 omits
PIN_LED_4ER), zeroes both brightness buffers immediately and clears the swap
flag. -/
def hardware_led_all_off (s : HardwareState) : HardwareState :=
  { s with
    port_led := fun i => if i = (2 : LedId) then s.port_led i else false
    led_brightness_active := fun _ => 0
    led_brightness_pending := fun _ => 0
    buffer_swap_pending := false }

/-! ## Claims C1-C3 -/

/-- A concrete hardware state used to exhibit the C1 boundary behaviour:
shared-channel active brightness 5, phase counter about to reach 5. -/
def c1State : HardwareState :=
  { led_brightness_active := fun i => if i = LED_3ER_RING then 5 else 0
    led_brightness_pending := fun i => if i = LED_3ER_RING then 5 else 0
    buffer_swap_pending := false
    pwm_counter := 4
    pb3_is_output := true
    mic_reading_ready := false
    port_led := fun _ => false }

/-- C1 counterexample: at the phase value `p = 5` reached by `hardware_update`
with shared-channel active brightness 5, the pin direction is left as output
even though `active_brightness > p` is false (the code switches to input only
when `pwm_counter > active`, i.e. it keeps output when they are equal), so
"direction is output iff active_brightness > p" fails at `p = active`. -/
theorem C1_counterexample :
    (hardware_update 8 c1State).pwm_counter = 5 ∧
    (hardware_update 8 c1State).led_brightness_active LED_3ER_RING = 5 ∧
    (hardware_update 8 c1State).pb3_is_output = true ∧
    ¬ ((hardware_update 8 c1State).led_brightness_active LED_3ER_RING >
        (hardware_update 8 c1State).pwm_counter) := by
  decide

/-- C1 (amended): for every PWM phase value `p` reached by a call to
`hardware_update`, the shared pin's direction is output iff the shared
channel's active brightness is greater than **or equal to** `p` (input exactly
when `active_brightness < p`), and `mic_reading_ready` is never asserted while
the direction is output. -/
theorem C1_shared_pin_arbitration (mi : Nat) (hmi : 0 < mi) (s : HardwareState) :
    ((hardware_update mi s).pb3_is_output = true ↔
      (hardware_update mi s).led_brightness_active LED_3ER_RING ≥
        (hardware_update mi s).pwm_counter) ∧
    ((hardware_update mi s).mic_reading_ready = true →
      (hardware_update mi s).pb3_is_output = false) := by
  clear hmi
  by_cases hc : (hardware_update mi s).led_brightness_active LED_3ER_RING <
      (hardware_update mi s).pwm_counter
  · have hpb : (hardware_update mi s).pb3_is_output = false := by
      rw [hardware_update_pb3]; simp [hc]
    rw [hpb]
    exact ⟨by simp; omega, fun _ => rfl⟩
  · have hpb : (hardware_update mi s).pb3_is_output = true := by
      rw [hardware_update_pb3]; simp [hc]
    have hrd : (hardware_update mi s).mic_reading_ready = false := by
      rw [hardware_update_ready]; simp [hc]
    rw [hpb, hrd]
    exact ⟨by simp; omega, by simp⟩

/-- Witness for C1: the amended arbitration property instantiated at a
concrete state and sampling interval. -/
theorem C1_shared_pin_arbitration_witness :
    ((hardware_update 8 c1State).pb3_is_output = true ↔
      (hardware_update 8 c1State).led_brightness_active LED_3ER_RING ≥
        (hardware_update 8 c1State).pwm_counter) ∧
    ((hardware_update 8 c1State).mic_reading_ready = true →
      (hardware_update 8 c1State).pb3_is_output = false) :=
  C1_shared_pin_arbitration 8 (by decide) c1State

/-- A concrete hardware state mid PWM cycle (phase counter 100) with nonzero
active brightness, used to exhibit C2's failure. -/
def c2State : HardwareState :=
  { led_brightness_active := fun _ => 5
    led_brightness_pending := fun _ => 7
    buffer_swap_pending := true
    pwm_counter := 100
    pb3_is_output := true
    mic_reading_ready := false
    port_led := fun _ => false }

/-- C2 counterexample: `hardware_led_all_off` changes a channel's active
brightness (5 to 0) immediately, at phase counter 100, i.e. mid-cycle and not
at a phase-counter wraparound tick — so "no operation of the PWM/Output
Driver changes any channel's active brightness mid-cycle" fails. -/
theorem C2_counterexample :
    c2State.pwm_counter = 100 ∧
    c2State.led_brightness_active 0 = 5 ∧
    (hardware_led_all_off c2State).led_brightness_active 0 = 0 := by
  decide

/-- C2 (amended): `hardware_update` changes active brightness only at the tick
on which the phase counter wraps to zero with a swap pending (copying the
pending buffer); `hardware_led_set` only stages the pending buffer, leaving
active values, the phase counter and the outputs untouched; but
`hardware_led_all_off` immediately zeroes both buffers at any phase. -/
theorem C2_double_buffering (mi led b : Nat) (s : HardwareState) :
    ((hardware_update mi s).led_brightness_active =
      if (s.pwm_counter + 1) % 256 = 0 ∧ s.buffer_swap_pending = true then
        s.led_brightness_pending else s.led_brightness_active) ∧
    (hardware_led_set led b s).led_brightness_active = s.led_brightness_active ∧
    (hardware_led_set led b s).pwm_counter = s.pwm_counter ∧
    (hardware_led_set led b s).port_led = s.port_led ∧
    (hardware_led_all_off s).led_brightness_active = fun _ => 0 := by
  refine ⟨?_, ?_, ?_, ?_, ?_⟩
  · exact hardware_update_active mi s
  · unfold hardware_led_set
    split <;> rfl
  · unfold hardware_led_set
    split <;> rfl
  · unfold hardware_led_set
    split <;> rfl
  · rfl

/-- C3 (confirmed): for every brightness `b ≤ 255` held for a full 256-phase
cycle, the channel's pin is computed high in exactly `b` of the 256 phase
values (on iff `b > phase`), so the on-fraction is `b/256` exactly. -/
theorem C3_pwm_duty_proportionality (b : Nat) (hb : b ≤ 255) :
    ((Finset.range 256).filter (fun p => ledPinHigh b p = true)).card = b := by
  have : (Finset.range 256).filter (fun p => ledPinHigh b p = true) =
      Finset.range b := by
    ext p
    simp only [Finset.mem_filter, Finset.mem_range, ledPinHigh]
    constructor
    · rintro ⟨-, h⟩
      simpa using h
    · intro h
      refine ⟨by omega, ?_⟩
      simpa using h
  rw [this, Finset.card_range]

/-- Witness for C3 at brightness 200. -/
theorem C3_pwm_duty_proportionality_witness :
    ((Finset.range 256).filter (fun p => ledPinHigh 200 p = true)).card = 200 :=
  C3_pwm_duty_proportionality 200 (by decide)

/-! ## Sensor layer (src/lib/Sensors/sensors.cpp)

`sensors_state_t` fields that the modelled operations read or write.  The
fields `breath_intensity`, `strong_threshold_start_time`,
`strong_threshold_active`, `song_cooldown_end_time` and `in_song_cooldown`
exist in the struct but are never written or read by `sensors_init`,
`sensors_update` or `sensors_calibrate` (other than the zeroing `memset`), so
they are omitted.  All times are `uint32`, ADC values and thresholds
`uint16`. -/

structure SensorsState where
  initialized : Bool
  last_update_time : Nat
  baseline : Nat
  light_threshold : Nat
  strong_threshold : Nat
  update_interval_ms : Nat
  current_raw : Nat
  deriving DecidableEq

/-- `sensors_calibrate` (sensors.cpp lines 132-137): fixed baseline 200,
independently of the `force_immediate` argument. -/
def sensors_calibrate (st : SensorsState) : SensorsState :=
  { st with baseline := 200 }

/-- `sensors_init` (sensors.cpp lines 47-71) with `now` the value
`hardware_get_millis()` returned: zeroed state, thresholds from config.h,
40 ms polling interval, then an initial `sensors_calibrate`. -/
def sensors_init (now : Nat) : SensorsState :=
  sensors_calibrate
    { initialized := true
      last_update_time := now
      baseline := 0
      light_threshold := BREATH_LIGHT_THRESHOLD
      strong_threshold := BREATH_STRONG_THRESHOLD
      update_interval_ms := 40
      current_raw := 0 }

/-- What `sensors_update` forwards to its collaborators on one reading:
`strong` stands for the synchronous `audio_play_next_melody()` call, and
`boost b` for `lighting_set_candle_intensity_boost(b)`. -/
inductive BreathAction where
  | strong : BreathAction
  | boost : Nat → BreathAction
  deriving DecidableEq

/-- `sensors_update` (sensors.cpp lines 73-115) with `now` the value of
`hardware_get_millis()` and `raw` the value returned by
`hardware_microphone_read()`; both `now` and `last_update_time` are uint32
values, so the elapsed-time test subtracts modulo `2^32`.  Returns the new
state and the action taken, `none` when the update was skipped.  The boost
computation mirrors the C integer semantics: `(raw - breath_threshold) * 50`
in 16-bit unsigned arithmetic, divided by `light_threshold`, truncated to
`uint8` by the assignment, then capped at 50. -/
def sensors_update (st : SensorsState) (now raw : Nat) :
    SensorsState × Option BreathAction :=
  if st.initialized = false then (st, none)
  else if (now + UINT32_MOD - st.last_update_time) % UINT32_MOD <
      st.update_interval_ms then (st, none)
  else
    let st := { st with last_update_time := now, current_raw := raw }
    let breath_threshold := (st.baseline + st.light_threshold) % 65536
    let strong_threshold := (st.baseline + st.strong_threshold) % 65536
    if raw > strong_threshold then (st, some .strong)
    else if raw > breath_threshold then
      let boost := (raw - breath_threshold) * 50 % 65536 / st.light_threshold % 256
      (st, some (.boost (if boost > 50 then 50 else boost)))
    else (st, some (.boost 0))

/-! ## Claim C4 -/

/-- Modelled from the spec: the boost the claim describes, "linear in the
excess above the light threshold, capped at a fixed maximum" (the maximum in
the code is 50).  Stated from the spec's words, for comparison with the code's
computation. -/
def claimed_linear_boost (baseline light raw : Nat) : Nat :=
  min ((raw - (baseline + light)) * 50 / light) 50

/-- C4 counterexample: with the initialized sensor state (baseline 200,
light threshold 1, strong threshold 50) and raw reading 207, the code forwards
boost 44 — the linear value 300 is truncated to `uint8` (300 mod 256 = 44)
*before* the cap — while a boost "linear in the excess above the light
threshold, capped at a fixed maximum" would be 50. -/
theorem C4_counterexample :
    (sensors_update (sensors_init 0) 40 207).2 = some (BreathAction.boost 44) ∧
    claimed_linear_boost 200 1 207 = 50 ∧ (44 : Nat) ≠ 50 := by
  constructor
  · decide
  · constructor <;> decide

/-- C4 (amended): for a raw reading taken by `sensors_update` (state
initialized, polling interval elapsed, thresholds not wrapping uint16 — true
of the configured baseline 200 and thresholds 1/50): above
`baseline + strong_threshold` the strong-breath path triggers melody playback
and returns immediately; a reading exactly at `baseline + strong_threshold`
does not trigger playback while one greater does; in
`(baseline + light_threshold, baseline + strong_threshold]` the boost
forwarded is the linear excess value
`(raw - (baseline + light_threshold)) * 50 / light_threshold` computed in
16-bit arithmetic and **truncated to 8 bits**, then capped at 50; at or below
`baseline + light_threshold` a zero boost is forwarded. -/
theorem C4_breath_classification (st : SensorsState) (now raw : Nat)
    (hinit : st.initialized = true)
    (hgate : ¬ ((now + UINT32_MOD - st.last_update_time) % UINT32_MOD <
      st.update_interval_ms))
    (hnw : st.baseline + st.strong_threshold < 65536)
    (hlt : st.light_threshold ≤ st.strong_threshold) :
    (raw > st.baseline + st.strong_threshold →
      (sensors_update st now raw).2 = some BreathAction.strong) ∧
    (st.baseline + st.light_threshold < raw ∧
        raw ≤ st.baseline + st.strong_threshold →
      (sensors_update st now raw).2 = some (BreathAction.boost
        (min ((raw - (st.baseline + st.light_threshold)) * 50 % 65536 /
          st.light_threshold % 256) 50))) ∧
    (raw ≤ st.baseline + st.light_threshold →
      (sensors_update st now raw).2 = some (BreathAction.boost 0)) := by
  have hi : ¬ (st.initialized = false) := by simp [hinit]
  have hbm : (st.baseline + st.light_threshold) % 65536 =
      st.baseline + st.light_threshold := Nat.mod_eq_of_lt (by omega)
  have hsm : (st.baseline + st.strong_threshold) % 65536 =
      st.baseline + st.strong_threshold := Nat.mod_eq_of_lt (by omega)
  refine ⟨?_, ?_, ?_⟩
  · intro h
    simp [sensors_update, hi, hgate, hbm, hsm, h]
  · rintro ⟨h1, h2⟩
    have hns : ¬ (raw > st.baseline + st.strong_threshold) := by omega
    have hmin : ∀ b : Nat, (if b > 50 then 50 else b) = min b 50 := by
      intro b; split <;> omega
    simp [sensors_update, hi, hgate, hbm, hsm, hns, h1, hmin]
  · intro h
    have hns : ¬ (raw > st.baseline + st.strong_threshold) := by omega
    have hnb : ¬ (raw > st.baseline + st.light_threshold) := by omega
    simp [sensors_update, hi, hgate, hbm, hsm, hns, hnb]

/-- Witness for C4 (amended) at the initialized state, reading 207. -/
theorem C4_breath_classification_witness :
    ((207 : Nat) > (sensors_init 0).baseline + (sensors_init 0).strong_threshold →
      (sensors_update (sensors_init 0) 40 207).2 = some BreathAction.strong) ∧
    ((sensors_init 0).baseline + (sensors_init 0).light_threshold < 207 ∧
        (207 : Nat) ≤ (sensors_init 0).baseline + (sensors_init 0).strong_threshold →
      (sensors_update (sensors_init 0) 40 207).2 = some (BreathAction.boost
        (min ((207 - ((sensors_init 0).baseline + (sensors_init 0).light_threshold)) *
          50 % 65536 / (sensors_init 0).light_threshold % 256) 50))) ∧
    ((207 : Nat) ≤ (sensors_init 0).baseline + (sensors_init 0).light_threshold →
      (sensors_update (sensors_init 0) 40 207).2 = some (BreathAction.boost 0)) :=
  C4_breath_classification (sensors_init 0) 40 207 (by decide) (by decide)
    (by decide) (by decide)

/-! ## Audio-reactive lighting (src/lib/Lighting/lighting.cpp lines 403-456)

Note frequency constants are the active table of audio.h lines 147-193 (the
fine-tuned buzzer values, not the commented-out standard frequencies). -/

/-- `NOTE_E4` (audio.h line 157). -/
def NOTE_E4 : Nat := 216
/-- `NOTE_F4` (audio.h line 158). -/
def NOTE_F4 : Nat := 229
/-- `NOTE_G4` (audio.h line 160). -/
def NOTE_G4 : Nat := 257
/-- `NOTE_A4` (audio.h line 162). -/
def NOTE_A4 : Nat := 290
/-- `NOTE_B4` (audio.h line 164). -/
def NOTE_B4 : Nat := 326
/-- `NOTE_C5` (audio.h line 165). -/
def NOTE_C5 : Nat := 344

/-- The `PORTB` bits of the four audio-reactive LED pins after a call to
`lighting_audio_reactive_note` / `lighting_audio_reactive_off` (which fully
determine all four bits). -/
structure AudioReactivePins where
  led1 : Bool
  led3 : Bool
  led4 : Bool
  led5 : Bool
  deriving DecidableEq

/-- `lighting_audio_reactive_off` (lighting.cpp lines 449-456): all four
audio-reactive pins low. -/
def lighting_audio_reactive_off : AudioReactivePins :=
  { led1 := false, led3 := false, led4 := false, led5 := false }

/-- `lighting_audio_reactive_note` (lighting.cpp lines 403-447): frequency 0
turns everything off; otherwise all pins are first cleared and then the
if/else-if chain drives at most one pin high:
`f ≥ AUDIO_NOTE_LED_1ER_MIN` (C5) → tip; `AUDIO_NOTE_LED_3ER_MIN ≤ f ≤
AUDIO_NOTE_LED_3ER_MAX` (A4..B4) → upper; `AUDIO_NOTE_LED_4ER_MIN ≤ f ≤
AUDIO_NOTE_LED_4ER_MAX` (F4..G4) → middle; `f ≤ AUDIO_NOTE_LED_5ER_MAX` (E4)
→ base; anything else leaves every pin low. -/
def lighting_audio_reactive_note (frequency : Nat) : AudioReactivePins :=
  if frequency = 0 then lighting_audio_reactive_off
  else if frequency ≥ NOTE_C5 then
    { lighting_audio_reactive_off with led1 := true }
  else if NOTE_A4 ≤ frequency ∧ frequency ≤ NOTE_B4 then
    { lighting_audio_reactive_off with led3 := true }
  else if NOTE_F4 ≤ frequency ∧ frequency ≤ NOTE_G4 then
    { lighting_audio_reactive_off with led4 := true }
  else if frequency ≤ NOTE_E4 then
    { lighting_audio_reactive_off with led5 := true }
  else lighting_audio_reactive_off

/-! ## Claim C7 -/

/-- C7 counterexample: the four bands are disjoint but **not** contiguous.
273 Hz is `NOTE_GS4`, a playable chromatic frequency strictly between the
middle band (up to G4 = 257) and the upper band (from A4 = 290): it is
nonzero yet drives no audio-reactive pin, so a nonzero frequency does not
always fall into one of the four bands. -/
theorem C7_counterexample :
    lighting_audio_reactive_note 273 = lighting_audio_reactive_off ∧
    (273 : Nat) ≠ 0 := by
  decide

/-- C7 (amended): frequency 0 turns all audio-reactive channels off; a
nonzero frequency inside one of the four **disjoint** bands (C5 and above →
tip; A4..B4 → upper; F4..G4 → middle; E4 and below → base) drives exactly
that channel's pin high with the other three low; but the bands are not
contiguous — a nonzero frequency in one of the gaps (E4,F4), (G4,A4), (B4,C5)
drives no pin at all. -/
theorem C7_audio_reactive_bands (f : Nat) :
    (f = 0 → lighting_audio_reactive_note f = lighting_audio_reactive_off) ∧
    (f ≥ NOTE_C5 → lighting_audio_reactive_note f =
      { lighting_audio_reactive_off with led1 := true }) ∧
    (NOTE_A4 ≤ f ∧ f ≤ NOTE_B4 → lighting_audio_reactive_note f =
      { lighting_audio_reactive_off with led3 := true }) ∧
    (NOTE_F4 ≤ f ∧ f ≤ NOTE_G4 → lighting_audio_reactive_note f =
      { lighting_audio_reactive_off with led4 := true }) ∧
    (f ≠ 0 ∧ f ≤ NOTE_E4 → lighting_audio_reactive_note f =
      { lighting_audio_reactive_off with led5 := true }) ∧
    ((NOTE_E4 < f ∧ f < NOTE_F4) ∨ (NOTE_G4 < f ∧ f < NOTE_A4) ∨
        (NOTE_B4 < f ∧ f < NOTE_C5) →
      lighting_audio_reactive_note f = lighting_audio_reactive_off) := by
  simp only [lighting_audio_reactive_note, NOTE_E4, NOTE_F4, NOTE_G4, NOTE_A4,
    NOTE_B4, NOTE_C5]
  refine ⟨?_, ?_, ?_, ?_, ?_, ?_⟩
  · intro h; simp [h]
  · intro h
    rw [if_neg (by omega), if_pos (by omega)]
  · rintro ⟨h1, h2⟩
    rw [if_neg (by omega), if_neg (by omega), if_pos (by omega)]
  · rintro ⟨h1, h2⟩
    rw [if_neg (by omega), if_neg (by omega), if_neg (by omega),
      if_pos (by omega)]
  · rintro ⟨h1, h2⟩
    rw [if_neg (by omega), if_neg (by omega), if_neg (by omega),
      if_neg (by omega), if_pos (by omega)]
  · intro h
    rw [if_neg (by omega), if_neg (by omega), if_neg (by omega),
      if_neg (by omega), if_neg (by omega)]

/-- Witness for C7 (amended): A4-band frequency 300 drives exactly the upper
(LED_3ER) pin. -/
theorem C7_audio_reactive_bands_witness :
    lighting_audio_reactive_note 300 =
      { lighting_audio_reactive_off with led3 := true } :=
  (C7_audio_reactive_bands 300).2.2.1 ⟨by decide, by decide⟩

/-! ## Audio playback state (src/lib/Audio/audio.cpp) -/

/-- `melody_id_t` ordinals (audio.h lines 36-47). -/
def MELODY_NONE : Nat := 0
/-- `MELODY_OH_CHRISTMAS_TREE` ordinal. -/
def MELODY_OH_CHRISTMAS_TREE : Nat := 1
/-- `MELODY_SILENT_NIGHT` ordinal. -/
def MELODY_SILENT_NIGHT : Nat := 2
/-- `MELODY_JINGLE_BELLS` ordinal. -/
def MELODY_JINGLE_BELLS : Nat := 3
/-- `MELODY_NOEL` ordinal. -/
def MELODY_NOEL : Nat := 4
/-- `MELODY_GLING_KLOECKCHEN` ordinal. -/
def MELODY_GLING_KLOECKCHEN : Nat := 5

/-- A compiled-in melody.  Of `audio_melody_t` only `note_count` is modelled:
the note array and loop flag drive pin I/O and delays during the blocking
render but never touch the playback state the claims are about. -/
structure Melody where
  note_count : Nat
  deriving DecidableEq

/-- `get_melody_data` (audio.cpp lines 483-520) under config.h's song
selection: `ENABLE_OH_CHRISTMAS_TREE/SILENT_NIGHT/JINGLE_BELLS/NOEL/
GLING_KLOECKCHEN` are 1; `ENABLE_KOMMET_IHR_HIRTEN`, `ENABLE_SCHNEEFLOECKCHEN`
and `ENABLE_TEST_TONE` are undefined (preprocess to 0), so those cases and
every other id fall through to `NULL`.  Note counts are the lengths of the
corresponding `PROGMEM` note arrays in audio.cpp. -/
def get_melody_data (melody_id : Nat) : Option Melody :=
  if melody_id = MELODY_OH_CHRISTMAS_TREE then some ⟨47⟩
  else if melody_id = MELODY_SILENT_NIGHT then some ⟨14⟩
  else if melody_id = MELODY_JINGLE_BELLS then some ⟨26⟩
  else if melody_id = MELODY_NOEL then some ⟨26⟩
  else if melody_id = MELODY_GLING_KLOECKCHEN then some ⟨41⟩
  else none

/-- `audio_state_t` (audio.cpp lines 27-36). -/
structure AudioState where
  initialized : Bool
  song_rotation_index : Nat
  song_currently_playing : Bool
  song_end_time : Nat
  cooldown_end_time : Nat
  deriving DecidableEq

/-- `audio_is_song_playing` (audio.cpp lines 843-846). -/
def audio_is_song_playing (st : AudioState) : Bool :=
  st.song_currently_playing

/-- `audio_is_cooldown_expired` (audio.cpp lines 848-852), with `now` the
uint32 value `hardware_get_millis()` returned. -/
def audio_is_cooldown_expired (now : Nat) (st : AudioState) : Bool :=
  now ≥ st.cooldown_end_time

/-- `audio_play_melody_blocking` (audio.cpp lines 638-717) as a transformer
of the playback state, with `now_end` the uint32 millisecond time when the
blocking render finishes (the `hardware_get_millis()` call at line 708).
An unknown id or a zero note count returns with no state change.  Otherwise
`song_currently_playing` is set true for the duration of the synchronous
render — the parameter clamping and the per-note loop (transposition,
audio-reactive lighting, bit-banged tone, inter-note gaps) write only to pins
and busy-wait delays, never to `g_audio_state` — and the completion block
resets it to false and records the end and cooldown times. -/
def audio_play_melody_blocking (melody_id duty_cycle_percent speed_percent : Nat)
    (transpose_semitones : Int) (now_end : Nat) (st : AudioState) : AudioState :=
  match get_melody_data melody_id with
  | none => st
  | some melody_data =>
    if melody_data.note_count = 0 then st
    else
      let st₁ := { st with song_currently_playing := true }
      { st₁ with
        song_currently_playing := false
        song_end_time := now_end % UINT32_MOD
        cooldown_end_time := (now_end % UINT32_MOD + SONG_COOLDOWN_DURATION) %
          UINT32_MOD }

/-! ## Claims C6, C9, C10 -/

set_option maxRecDepth 4096 in
/-- C6 (confirmed): when a song's blocking playback completes at time `t`
(with `t + 3000` not overflowing uint32 — the wrap after 49.7 days is outside
the claim), the state satisfies `cooldown_end_time = end_time +
SONG_COOLDOWN_DURATION`, `audio_is_cooldown_expired` holds at a time iff that
time is at least `end_time + SONG_COOLDOWN_DURATION`, and in particular it is
false at the completion instant itself. -/
theorem C6_cooldown_semantics (melody_id duty speed : Nat) (tr : Int)
    (t : Nat) (st : AudioState)
    (hm : ∃ m, get_melody_data melody_id = some m ∧ m.note_count ≠ 0)
    (ht : t + SONG_COOLDOWN_DURATION < UINT32_MOD) :
    (audio_play_melody_blocking melody_id duty speed tr t st).cooldown_end_time =
      (audio_play_melody_blocking melody_id duty speed tr t st).song_end_time +
        SONG_COOLDOWN_DURATION ∧
    (∀ now, audio_is_cooldown_expired now
        (audio_play_melody_blocking melody_id duty speed tr t st) = true ↔
      now ≥ (audio_play_melody_blocking melody_id duty speed tr t st).song_end_time +
        SONG_COOLDOWN_DURATION) ∧
    audio_is_cooldown_expired
      (audio_play_melody_blocking melody_id duty speed tr t st).song_end_time
      (audio_play_melody_blocking melody_id duty speed tr t st) = false := by
  obtain ⟨m, hm, hc⟩ := hm
  have hD : SONG_COOLDOWN_DURATION = 3000 := rfl
  have htm : t % UINT32_MOD = t := Nat.mod_eq_of_lt (by omega)
  have htm2 : (t + SONG_COOLDOWN_DURATION) % UINT32_MOD =
      t + SONG_COOLDOWN_DURATION := Nat.mod_eq_of_lt ht
  simp only [audio_play_melody_blocking, hm, hc, if_false, htm, htm2]
  refine ⟨by trivial, ?_, ?_⟩
  · intro now
    simp [audio_is_cooldown_expired]
  · simp [audio_is_cooldown_expired, hD]

/-- Witness for C6: Silent Night finishing at t = 1000. -/
theorem C6_cooldown_semantics_witness :
    (audio_play_melody_blocking 2 75 150 8 1000
        ⟨true, 0, false, 0, 0⟩).cooldown_end_time =
      (audio_play_melody_blocking 2 75 150 8 1000
        ⟨true, 0, false, 0, 0⟩).song_end_time + SONG_COOLDOWN_DURATION ∧
    (∀ now, audio_is_cooldown_expired now
        (audio_play_melody_blocking 2 75 150 8 1000 ⟨true, 0, false, 0, 0⟩) = true ↔
      now ≥ (audio_play_melody_blocking 2 75 150 8 1000
        ⟨true, 0, false, 0, 0⟩).song_end_time + SONG_COOLDOWN_DURATION) ∧
    audio_is_cooldown_expired
      (audio_play_melody_blocking 2 75 150 8 1000 ⟨true, 0, false, 0, 0⟩).song_end_time
      (audio_play_melody_blocking 2 75 150 8 1000 ⟨true, 0, false, 0, 0⟩) = false :=
  C6_cooldown_semantics 2 75 150 8 1000 ⟨true, 0, false, 0, 0⟩
    ⟨⟨14⟩, by decide, by decide⟩ (by decide)

/-- C9 (confirmed): for every melody id with no melody data (unknown or
compiled out) or a zero note count, `audio_play_melody_blocking` returns
immediately with the playback state completely unchanged — a silent no-op. -/
theorem C9_invalid_song_noop (melody_id duty speed : Nat) (tr : Int)
    (t : Nat) (st : AudioState)
    (h : get_melody_data melody_id = none ∨
      ∃ m, get_melody_data melody_id = some m ∧ m.note_count = 0) :
    audio_play_melody_blocking melody_id duty speed tr t st = st := by
  rcases h with h | ⟨m, hm, hc⟩
  · simp [audio_play_melody_blocking, h]
  · simp [audio_play_melody_blocking, hm, hc]

/-- Witness for C9: id 8 (`MELODY_TEST_TONE`, compiled out) is a no-op. -/
theorem C9_invalid_song_noop_witness :
    audio_play_melody_blocking 8 80 100 0 500 ⟨true, 3, false, 7, 11⟩ =
      ⟨true, 3, false, 7, 11⟩ :=
  C9_invalid_song_noop 8 80 100 0 500 ⟨true, 3, false, 7, 11⟩ (Or.inl rfl)

/-- C10 (confirmed): for every melody id and parameter combination,
`audio_play_melody_blocking` leaves `song_currently_playing` false on return
(the flag is raised only for the duration of the synchronous render and reset
on every path), so `audio_is_song_playing` never reports true to the
foreground loop. -/
theorem C10_playing_flag_reset (melody_id duty speed : Nat) (tr : Int)
    (t : Nat) (st : AudioState)
    (h : st.song_currently_playing = false) :
    audio_is_song_playing
      (audio_play_melody_blocking melody_id duty speed tr t st) = false := by
  rcases hm : get_melody_data melody_id with - | m
  · simpa [audio_play_melody_blocking, hm, audio_is_song_playing] using h
  · by_cases hc : m.note_count = 0
    · simpa [audio_play_melody_blocking, hm, hc, audio_is_song_playing] using h
    · simp [audio_play_melody_blocking, hm, hc, audio_is_song_playing]

/-- Witness for C10: a valid playback (Jingle Bells) ends not playing. -/
theorem C10_playing_flag_reset_witness :
    audio_is_song_playing
      (audio_play_melody_blocking 3 85 180 6 2000 ⟨true, 1, false, 0, 0⟩) = false :=
  C10_playing_flag_reset 3 85 180 6 2000 ⟨true, 1, false, 0, 0⟩ rfl

/-! ## Frequency transposition (src/lib/Audio/audio.cpp lines 522-605) -/

/-- The chromatic note table of `transpose_frequency` (audio.cpp lines
534-569): `NOTE_G3 .. NOTE_E6` with the active values of audio.h lines
147-193. -/
def note_frequencies : List Nat :=
  [128, 136, 144, 153, 162, 172, 182, 192, 204, 216, 229, 243, 257, 273,
   290, 307, 326, 344, 365, 386, 408, 433, 459, 486, 515, 546, 580, 614,
   652, 690, 730, 773, 818, 866]

/-- Table lookup `pgm_read_word(&note_frequencies[i])`. -/
def noteFreqAt (i : Nat) : Nat := note_frequencies.getD i 0

/-- The closest-note scan (audio.cpp lines 573-587): `min_diff` starts at
65535 and `note_index` at -1 (`int8_t`); only strictly smaller differences
win, so on ties the lowest index is kept. -/
def closest_note_index (f : Nat) : Int :=
  ((List.range 34).foldl
    (fun acc i =>
      let table_freq := noteFreqAt i
      let diff := if f > table_freq then f - table_freq else table_freq - f
      if diff < acc.1 then (diff, (i : Int)) else acc)
    ((65535 : Nat), (-1 : Int))).2

/-- Truncation of an integer to `int8_t` (two's complement), as performed by
the assignment `int8_t transposed_index = note_index + semitones;` at
line 596. -/
def toInt8 (n : Int) : Int := (n + 128) % 256 - 128

/-- Lines 596-602: the transposed index after the `int8_t` truncation and the
two sequential clamps (`< 0 → 0`, then `>= note_count → note_count - 1`). -/
def clamped_transposed_index (n : Int) : Nat :=
  (if (if toInt8 n < 0 then 0 else toInt8 n) ≥ 34 then 33
   else (if toInt8 n < 0 then 0 else toInt8 n)).toNat

/-- `transpose_frequency` (audio.cpp lines 525-605): 0 semitones or a rest
returns the frequency unchanged; otherwise the closest table note is found,
shifted by the semitone count with clamping at the table edges, and the table
entry at the resulting index is returned (the `note_index < 0` fallback at
line 590 is unreachable but modelled). -/
def transpose_frequency (frequency : Nat) (semitones : Int) : Nat :=
  if semitones = 0 ∨ frequency = 0 then frequency
  else if closest_note_index frequency < 0 then frequency
  else noteFreqAt (clamped_transposed_index (closest_note_index frequency + semitones))

/-! ## Claim C8 -/

/-- The table is sorted: lookups at larger (in-range) indices are larger. -/
theorem noteFreqAt_mono : ∀ i < 34, ∀ j < 34, i ≤ j → noteFreqAt i ≤ noteFreqAt j := by
  decide

/-- Every table entry is at most the top entry `NOTE_E6 = 866`. -/
theorem noteFreqAt_le_max : ∀ i < 34, noteFreqAt i ≤ 866 := by decide

set_option maxHeartbeats 4000000 in
/-- For frequencies within the table's span, the closest-note index is in
range and the table entries adjacent to it bracket the frequency. -/
theorem closest_note_index_bounds :
    ∀ f < 867, 128 ≤ f →
      0 ≤ closest_note_index f ∧ closest_note_index f < 34 ∧
      noteFreqAt ((closest_note_index f).toNat - 1) ≤ f ∧
      f ≤ noteFreqAt (min ((closest_note_index f).toNat + 1) 33) := by
  decide

/-- For ordinary magnitudes the `int8_t` truncation is the identity and the
clamping is a plain max/min. -/
theorem clamped_transposed_index_eq (n : Int) (h1 : -128 ≤ n) (h2 : n ≤ 127) :
    clamped_transposed_index n = (max 0 (min 33 n)).toNat := by
  unfold clamped_transposed_index toInt8
  split_ifs <;> omega

/-- The clamped index is always a valid table index. -/
theorem clamped_transposed_index_lt (n : Int) : clamped_transposed_index n < 34 := by
  unfold clamped_transposed_index toInt8
  split_ifs <;> omega

/-- C8 counterexample: the claim quantifies over every nonzero frequency, but
at 900 Hz (above the table top, `NOTE_E6 = 866`) the result of
`transpose_frequency` is 900 at 0 semitones — exceeding the highest table
frequency — and drops to 866 at +1 semitone, so it is not non-decreasing in
the semitone argument; moreover for in-table 290 Hz (`NOTE_A4`, index 14) the
`int8_t` truncation wraps at +114 semitones, collapsing the index to the
bottom of the table (866 at +113 vs 128 at +114). -/
theorem C8_counterexample :
    transpose_frequency 900 0 = 900 ∧
    transpose_frequency 900 1 = 866 ∧
    ¬ (transpose_frequency 900 0 ≤ transpose_frequency 900 1) ∧
    transpose_frequency 290 113 = 866 ∧
    transpose_frequency 290 114 = 128 ∧
    ¬ (transpose_frequency 290 113 ≤ transpose_frequency 290 114) := by
  decide

/-- C8 (amended): for every nonzero frequency within the chromatic table's
span [128, 866] — which covers every frequency the program can pass, since
all compiled-in melody notes are table entries — and semitone arguments in
the caller-clamped range [-12, 12], `transpose_frequency` is non-decreasing
in the semitone argument, never exceeds the highest table frequency 866, and
the selected index is clamped to the table bounds (min/max, no wrap). -/
theorem C8_transpose_monotone_clamped (f : Nat) (s₁ s₂ : Int)
    (hf1 : 128 ≤ f) (hf2 : f ≤ 866)
    (hs1 : -12 ≤ s₁) (h12 : s₁ ≤ s₂) (hs2 : s₂ ≤ 12) :
    transpose_frequency f s₁ ≤ transpose_frequency f s₂ ∧
    transpose_frequency f s₂ ≤ 866 ∧
    (s₂ ≠ 0 → transpose_frequency f s₂ =
      noteFreqAt ((max 0 (min 33 (closest_note_index f + s₂))).toNat)) := by
  have hf0 : ¬ (f = 0) := by omega
  obtain ⟨h0, h1, hlow, hhigh⟩ := closest_note_index_bounds f (by omega) hf1
  have key : ∀ s : Int, s ≠ 0 → -12 ≤ s → s ≤ 12 →
      transpose_frequency f s =
        noteFreqAt ((max 0 (min 33 (closest_note_index f + s))).toNat) := by
    intro s hs ha hb
    have hcond : ¬ (s = 0 ∨ f = 0) := fun h => h.elim hs hf0
    have hni : ¬ (closest_note_index f < 0) := by omega
    unfold transpose_frequency
    rw [if_neg hcond, if_neg hni,
      clamped_transposed_index_eq (closest_note_index f + s) (by omega) (by omega)]
  have hidx : ∀ s : Int, ((max 0 (min 33 (closest_note_index f + s))).toNat) < 34 := by
    intro s; omega
  refine ⟨?_, ?_, fun hs => key s₂ hs (by omega) hs2⟩
  · by_cases hz1 : s₁ = 0
    · by_cases hz2 : s₂ = 0
      · simp [hz1, hz2]
      · rw [hz1]
        rw [key s₂ hz2 (by omega) hs2]
        have e1 : transpose_frequency f 0 = f := by
          unfold transpose_frequency; simp
        rw [e1]
        calc f ≤ noteFreqAt (min ((closest_note_index f).toNat + 1) 33) := hhigh
          _ ≤ noteFreqAt ((max 0 (min 33 (closest_note_index f + s₂))).toNat) := by
              apply noteFreqAt_mono _ (by omega) _ (hidx s₂)
              omega
    · by_cases hz2 : s₂ = 0
      · rw [hz2]
        rw [key s₁ hz1 hs1 (by omega)]
        have e2 : transpose_frequency f 0 = f := by
          unfold transpose_frequency; simp
        rw [e2]
        calc noteFreqAt ((max 0 (min 33 (closest_note_index f + s₁))).toNat)
            ≤ noteFreqAt ((closest_note_index f).toNat - 1) := by
              apply noteFreqAt_mono _ (hidx s₁) _ (by omega)
              omega
          _ ≤ f := hlow
      · rw [key s₁ hz1 hs1 (by omega), key s₂ hz2 (by omega) hs2]
        apply noteFreqAt_mono _ (hidx s₁) _ (hidx s₂)
        omega
  · by_cases hz2 : s₂ = 0
    · rw [hz2]
      have e2 : transpose_frequency f 0 = f := by
        unfold transpose_frequency; simp
      rw [e2]; exact hf2
    · rw [key s₂ hz2 (by omega) hs2]
      exact noteFreqAt_le_max _ (hidx s₂)

/-- Witness for C8 (amended) at `NOTE_A4` (290 Hz), semitones -2 and 3. -/
theorem C8_transpose_monotone_clamped_witness :
    transpose_frequency 290 (-2) ≤ transpose_frequency 290 3 ∧
    transpose_frequency 290 3 ≤ 866 ∧
    ((3 : Int) ≠ 0 → transpose_frequency 290 3 =
      noteFreqAt ((max 0 (min 33 (closest_note_index 290 + 3))).toNat)) :=
  C8_transpose_monotone_clamped 290 (-2) 3 (by decide) (by decide)
    (by decide) (by decide) (by decide)

/-! ## Main scheduler loop (src/src/main.cpp lines 46-60) -/

/-- The state visible to one iteration of the foreground loop. `millis` is
the uint32 millisecond counter value the iteration reads. -/
structure SystemState where
  hw : HardwareState
  audio : AudioState
  sensors : SensorsState
  millis : Nat

/-- What one scheduler iteration did: whether the gated `sensors_update()`
call was made, and whether it took the strong-breath path (the synchronous
`audio_play_next_melody()` trigger). -/
structure IterationTrace where
  sensors_invoked : Bool
  strong_breath_fired : Bool
  deriving DecidableEq

/-- One iteration of the `while (1)` scheduler loop (main.cpp lines 46-60):
`hardware_update()`, then `lighting_update()` (which only stages LED
brightness — it reads the gate conditions at most to suspend itself and
writes neither of them), then `sensors_update()` guarded by
`!audio_is_song_playing() && audio_is_cooldown_expired()`.  `mi` is the
microphone sampling interval, `raw` the ADC value a sensor read would
return.  Returns the updated state and the trace of what ran. -/
def main_loop_iteration (mi raw : Nat) (sys : SystemState) :
    SystemState × IterationTrace :=
  let hw' := hardware_update mi sys.hw
  if !audio_is_song_playing sys.audio ∧
      audio_is_cooldown_expired sys.millis sys.audio then
    let sens := sensors_update sys.sensors sys.millis raw
    ({ sys with hw := hw', sensors := sens.1 },
      { sensors_invoked := true
        strong_breath_fired := sens.2 = some BreathAction.strong })
  else
    ({ sys with hw := hw' },
      { sensors_invoked := false, strong_breath_fired := false })

/-! ## Claim C5 -/

/-- C5 (confirmed): in any scheduler iteration, if `sensors_update` was
invoked — in particular if its strong-breath path fired — then at the gate
check no song was playing and the cooldown had expired; the strong-breath
trigger can never run while `is_playing` is true or before cooldown
expiry. -/
theorem C5_sensor_gating (mi raw : Nat) (sys : SystemState)
    (h : (main_loop_iteration mi raw sys).2.sensors_invoked = true ∨
      (main_loop_iteration mi raw sys).2.strong_breath_fired = true) :
    audio_is_song_playing sys.audio = false ∧
    audio_is_cooldown_expired sys.millis sys.audio = true := by
  by_cases hg : !audio_is_song_playing sys.audio ∧
      audio_is_cooldown_expired sys.millis sys.audio
  · obtain ⟨hg1, hg2⟩ := hg
    constructor
    · simpa using hg1
    · exact hg2
  · exfalso
    rcases h with h | h <;>
      simp only [main_loop_iteration, if_neg hg] at h <;> exact Bool.noConfusion h

/-- Witness for C5: a state with no song playing and cooldown expired, in
which the iteration does invoke the sensor update. -/
theorem C5_sensor_gating_witness :
    audio_is_song_playing
      (SystemState.mk c1State ⟨true, 0, false, 0, 0⟩ (sensors_init 0) 100).audio = false ∧
    audio_is_cooldown_expired
      (SystemState.mk c1State ⟨true, 0, false, 0, 0⟩ (sensors_init 0) 100).millis
      (SystemState.mk c1State ⟨true, 0, false, 0, 0⟩ (sensors_init 0) 100).audio = true :=
  C5_sensor_gating 8 207 (SystemState.mk c1State ⟨true, 0, false, 0, 0⟩ (sensors_init 0) 100)
    (Or.inl (by decide))

end BlinkyTree
